import Mathlib

/-!
# StockSnap — Sale Transaction Engine: shallow embedding and verification

This file embeds the core sale-flow logic of the StockSnap point-of-sale app:

* `SaleSheet` (price validation, payment validation, low-stock gate, submit)
  from `components/pos/SaleSheet.tsx`;
* the POS screen glue (`handleBarcodeScan`, `lookupBySku`, `handleConfirmSale`)
  from `app/(main)/pos/index.tsx`;
* the transaction/stock layer (`createSale`, `decrementStock`)
  from `lib/useTransaction.ts`;
* phone and debounce helpers from `lib/phone.ts` and `store/auth.ts`.

JavaScript numbers are modelled as `ℚ` (every concrete value appearing in the
claims is exactly representable both as an IEEE double and as a rational, and
the arithmetic performed at those values is exact), integer counters as `ℤ`,
and strings as `String` or `List Char`.  Fallible collaborator calls (Supabase
inserts, RPCs, updates) are modelled by passing their outcomes explicitly.
-/

namespace StockSnap

/-- `Transaction.payment_method` from `types/index.ts`. -/
inductive PaymentMethod
  | cash
  | mpesa_stk
  | mpesa_till
  | card
  | other
deriving DecidableEq, Repr

/-- `Transaction.payment_status` from `types/index.ts`. -/
inductive PaymentStatus
  | pending
  | confirmed
  | failed
deriving DecidableEq, Repr

/-- The fields of `Item` (`types/index.ts`) consumed by the sale engine.
Money fields are JS numbers (modelled as `ℚ`), counters are `ℤ`. -/
structure Item where
  id : String
  user_id : String
  sku : String
  qr_code_data : String
  sell_price : ℚ
  sell_price_floor : ℚ
  sell_price_ceiling : Option ℚ
  quantity_in_stock : ℤ
  quantity_sold : ℤ
  reorder_point : ℤ
  is_active : Bool
deriving DecidableEq, Repr

/-! ## String helpers (JS semantics restricted to the inputs that can occur) -/

/-- Numeric value of a list of ASCII digit characters, most significant first. -/
def digitsVal (ds : List Char) : ℕ :=
  ds.foldl (fun a c => 10 * a + (c.toNat - 48)) 0

/-- `parseFloat(price) || 0` (SaleSheet.tsx line 53), restricted to the
character set the price field can contain: `onChangeText` strips everything
but digits and periods (line 213), and `parseFloat` then reads the longest
prefix `digits [ '.' digits ]`; when no digit is read the result is `NaN`
and `|| 0` turns it (and a parsed `0`) into `0`. -/
def priceNumOf (s : String) : ℚ :=
  let l := s.toList
  let intDigits := l.takeWhile Char.isDigit
  let rest := l.drop intDigits.length
  let fracDigits :=
    match rest with
    | '.' :: r => r.takeWhile Char.isDigit
    | _ => []
  if intDigits.isEmpty ∧ fracDigits.isEmpty then 0
  else (digitsVal intDigits : ℚ) + (digitsVal fracDigits : ℚ) / (10 : ℚ) ^ fracDigits.length

/-- JS `String.prototype.trim` on the character list (whitespace at both ends). -/
def jsTrim (l : List Char) : List Char :=
  ((l.dropWhile Char.isWhitespace).reverse.dropWhile Char.isWhitespace).reverse

/-- JS `toUpperCase`, ASCII fragment (`Char.toUpper` maps `a`-`z` and fixes
the rest; every character this app compares against is ASCII). -/
def jsToUpper (l : List Char) : List Char := l.map Char.toUpper

/-! ## Pricing Policy (`SaleSheet.tsx` lines 56-64) -/

/-- The two rejection reasons of `priceError`; the source returns the
message strings `Min price: ...` / `Max price: ...`. -/
inductive PriceErr
  | belowFloor
  | aboveCeiling
deriving DecidableEq, Repr

/-- `priceError` (SaleSheet.tsx lines 56-64): below the floor, else above the
(non-null) ceiling, else no error. -/
def priceError (item : Item) (priceNum : ℚ) : Option PriceErr :=
  if priceNum < item.sell_price_floor then some .belowFloor
  else
    match item.sell_price_ceiling with
    | some c => if priceNum > c then some .aboveCeiling else none
    | none => none

/-- The confirm button's `disabled={isLoading || !!priceError}`
(SaleSheet.tsx line 344). -/
def confirmDisabled (isLoading : Bool) (item : Item) (priceText : String) : Bool :=
  isLoading || (priceError item (priceNumOf priceText)).isSome

/-! ## Payment Method Validator (`lib/phone.ts`, `SaleSheet.tsx` lines 80-98) -/

/-- `normalizeKenyanPhone` (lib/phone.ts): strip non-digits (`\D`), then
E.164-normalise by the three recognised shapes, else prefix `+`. -/
def normalizeKenyanPhone (input : String) : List Char :=
  let digits := input.toList.filter Char.isDigit
  if ['2', '5', '4'].isPrefixOf digits ∧ digits.length = 12 then '+' :: digits
  else if ['0'].isPrefixOf digits ∧ digits.length = 10 then
    '+' :: '2' :: '5' :: '4' :: digits.drop 1
  else if digits.length = 9 then '+' :: '2' :: '5' :: '4' :: digits
  else '+' :: digits

/-- `isValidKenyanPhone` (lib/phone.ts): the normalised number matches
`/^\+254[17]\d{8}$/`. -/
def isValidKenyanPhone (input : String) : Bool :=
  match normalizeKenyanPhone input with
  | '+' :: '2' :: '5' :: '4' :: c :: rest =>
    (c = '1' ∨ c = '7') ∧ rest.length = 8 ∧ rest.all Char.isDigit
  | _ => false

/-- One character of the class `[A-Z0-9]`. -/
def isUpperAlnum (c : Char) : Bool :=
  ('A' ≤ c ∧ c ≤ 'Z') ∨ c.isDigit

/-- `/^[A-Z0-9]{10}$/.test(codeClean)` (SaleSheet.tsx line 91). -/
def validMpesaCode (clean : List Char) : Bool :=
  clean.length = 10 ∧ clean.all isUpperAlnum

/-- `mpesaCode.trim().toUpperCase()` (SaleSheet.tsx lines 90 and 151). -/
def cleanMpesaCode (raw : String) : List Char :=
  jsToUpper (jsTrim raw.toList)

/-! ## SaleSheet confirm flow (`SaleSheet.tsx` lines 80-155) -/

/-- The SaleSheet's user-edited fields at confirm time. -/
structure SheetState where
  price : String
  quantity : ℤ
  paymentMethod : PaymentMethod
  mpesaPhone : String
  mpesaCode : String
  notes : String
deriving DecidableEq, Repr

/-- Toast variants from `store/toast.ts`. -/
inductive ToastVariant
  | success
  | error
  | warning
deriving DecidableEq, Repr

/-- The argument `submitSale` passes to `onConfirm` (SaleSheet.tsx props). -/
structure ConfirmData where
  price : ℚ
  quantity : ℤ
  paymentMethod : PaymentMethod
  mpesaPhone : Option String
  mpesaCode : Option String
  notes : Option String
deriving DecidableEq, Repr

/-- What one `submitSale()` call does: an optional toast plus the
`onConfirm` payload. -/
structure SubmitResult where
  toast : Option (String × ToastVariant)
  data : ConfirmData
deriving DecidableEq, Repr

/-- `submitSale` (SaleSheet.tsx lines 126-155).  `mpesa_stk` is downgraded to
cash with a warning toast; `mpesa_till` stores the trimmed-uppercased code;
`other` stores the trimmed non-empty note. -/
def submitSale (st : SheetState) : SubmitResult :=
  if st.paymentMethod = .mpesa_stk then
    { toast := some ("M-Pesa STK coming soon — recording as cash sale", .warning)
      data :=
        { price := priceNumOf st.price
          quantity := st.quantity
          paymentMethod := .cash
          mpesaPhone := none
          mpesaCode := none
          notes :=
            if jsTrim st.notes.toList ≠ [] then some (String.mk (jsTrim st.notes.toList))
            else none } }
  else
    { toast := none
      data :=
        { price := priceNumOf st.price
          quantity := st.quantity
          paymentMethod := st.paymentMethod
          mpesaPhone := none
          mpesaCode :=
            if st.paymentMethod = .mpesa_till then some (String.mk (cleanMpesaCode st.mpesaCode))
            else none
          notes :=
            if st.paymentMethod = .other ∧ jsTrim st.notes.toList ≠ [] then
              some (String.mk (jsTrim st.notes.toList))
            else none } }

/-- Outcome of one `handleConfirm` press (SaleSheet.tsx lines 80-124). -/
inductive ConfirmOutcome
  /-- `if (priceError) return;` — nothing happens, confirm blocked. -/
  | priceBlocked
  /-- `Alert.alert('Invalid Phone', ...)` then return. -/
  | invalidPhoneAlert
  /-- `Alert.alert('Invalid Code', ...)` then return. -/
  | invalidCodeAlert
  /-- The Low Stock Warning alert, whose Continue button runs `submitSale`. -/
  | lowStockGate (onContinue : SubmitResult)
  /-- `submitSale()` ran directly. -/
  | submitted (r : SubmitResult)
deriving DecidableEq, Repr

/-- `handleConfirm` (SaleSheet.tsx lines 80-124): price check, then
method-specific validation, then the low-stock gate, then submit. -/
def handleConfirm (item : Item) (st : SheetState) : ConfirmOutcome :=
  if (priceError item (priceNumOf st.price)).isSome then .priceBlocked
  else if st.paymentMethod = .mpesa_stk ∧ ¬ isValidKenyanPhone st.mpesaPhone then
    .invalidPhoneAlert
  else if st.paymentMethod = .mpesa_till ∧ ¬ validMpesaCode (cleanMpesaCode st.mpesaCode) then
    .invalidCodeAlert
  else if st.quantity > item.quantity_in_stock then .lowStockGate (submitSale st)
  else .submitted (submitSale st)

/-- The Low Stock Warning alert's two buttons (SaleSheet.tsx lines 102-113):
Continue runs the pending `submitSale`, Cancel does nothing. -/
def resolveLowStockGate (onContinue : SubmitResult) (ack : Bool) : Option SubmitResult :=
  if ack then some onContinue else none

/-! ## POS screen (`app/(main)/pos/index.tsx`) -/

/-- The `SalePayload` handed to `createSale` (types/index.ts,
pos/index.tsx lines 196-207). -/
structure SalePayload where
  item_id : String
  quantity : ℤ
  price_at_sale : ℚ
  total_amount : ℚ
  payment_method : PaymentMethod
  payment_status : PaymentStatus
  mpesa_transaction_code : Option String
  mpesa_phone : Option String
  notes : Option String
deriving DecidableEq, Repr

/-- The payload `handleConfirmSale` builds from the sheet's data
(pos/index.tsx lines 196-207): `total_amount = price * quantity` and
`payment_status = method === mpesa_stk ? pending : confirmed`. -/
def buildSalePayload (item : Item) (d : ConfirmData) : SalePayload :=
  { item_id := item.id
    quantity := d.quantity
    price_at_sale := d.price
    total_amount := d.price * (d.quantity : ℚ)
    payment_method := d.paymentMethod
    payment_status := if d.paymentMethod = .mpesa_stk then .pending else .confirmed
    mpesa_transaction_code := d.mpesaCode
    mpesa_phone := d.mpesaPhone
    notes := d.notes }

/-- The low-stock toast condition after a successful sale
(pos/index.tsx lines 210-223): `remaining = quantity_in_stock - quantity`,
alert iff `remaining <= reorder_point && remaining >= 0`. -/
def lowStockAlert (item : Item) (quantity : ℤ) : Bool :=
  let remaining := item.quantity_in_stock - quantity
  remaining ≤ item.reorder_point ∧ remaining ≥ 0

/-! ## Identifier Resolver (`pos/index.tsx` lines 144-153) -/

/-- One character matched by `.` in a JS regex without the `s` flag:
anything but a line terminator. -/
def isDotChar (c : Char) : Bool :=
  c ≠ '\n' ∧ c ≠ '\r' ∧ c.toNat ≠ 0x2028 ∧ c.toNat ≠ 0x2029

/-- Strip a literal character sequence from the front of a payload,
returning the remainder when every character matches. -/
def stripChars : List Char → List Char → Option (List Char)
  | [], l => some l
  | _ :: _, [] => none
  | p :: ps, c :: cs => if c = p then stripChars ps cs else none

/-- Split off the literal prefix of `/^stocksnap:\/\/item\/(.+)$/`,
returning the remainder of the payload. -/
def splitLegacy (l : List Char) : Option (List Char) :=
  stripChars "stocksnap://item/".toList l

/-- `rawData.match(/^stocksnap:\/\/item\/(.+)$/)` (pos/index.tsx line 149):
the capture group is the non-empty remainder, in which `.` cannot match a
line terminator. -/
def legacyMatch (raw : List Char) : Option (List Char) :=
  match splitLegacy raw with
  | some rest => if rest ≠ [] ∧ rest.all isDotChar then some rest else none
  | none => none

/-- `rawData.match(/^SS-\d{4}-[A-Z0-9]{3}-\d{5}$/)` (pos/index.tsx line 150). -/
def skuShape (raw : List Char) : Bool :=
  match raw with
  | 'S' :: 'S' :: '-' :: d1 :: d2 :: d3 :: d4 :: '-' :: a1 :: a2 :: a3 :: '-' ::
      n1 :: n2 :: n3 :: n4 :: n5 :: [] =>
    [d1, d2, d3, d4, n1, n2, n3, n4, n5].all Char.isDigit ∧ [a1, a2, a3].all isUpperAlnum
  | _ => false

/-- The code-extraction step of `handleBarcodeScan` (pos/index.tsx lines
149-153): `urlMatch ? urlMatch[1] : rawData.trim()`, with
`if (!urlMatch && !skuMatch) return;` before it. -/
def extractCode (raw : String) : Option String :=
  match legacyMatch raw.toList with
  | some code => some (String.mk code)
  | none =>
    if skuShape raw.toList then some (String.mk (jsTrim raw.toList)) else none

/-! ## Scan Debouncer (`store/auth.ts` lines 79-83, `pos/index.tsx` line 31,
lines 155-167) -/

/-- `SCAN_DEBOUNCE_MS` (pos/index.tsx line 31). -/
def SCAN_DEBOUNCE_MS : ℤ := 2000

/-- The auth store's debounce fields: `lastScannedSku : string | null` and
`lastScanTime : number` (store/auth.ts). -/
structure ScanDebounceState where
  lastScannedSku : Option String
  lastScanTime : ℤ
deriving DecidableEq, Repr

/-- The suppression test of `handleBarcodeScan` (pos/index.tsx line 162):
`sku === lastScannedSku && Date.now() - lastScanTime < SCAN_DEBOUNCE_MS`
(`===` against a `null` record is false for every string). -/
def debounceSuppress (st : ScanDebounceState) (sku : String) (now : ℤ) : Bool :=
  st.lastScannedSku = some sku ∧ now - st.lastScanTime < SCAN_DEBOUNCE_MS

/-- `setLastScannedSku` (store/auth.ts lines 79-83): store the code and
`Date.now()`. -/
def setLastScannedSku (sku : String) (now : ℤ) : ScanDebounceState :=
  { lastScannedSku := some sku, lastScanTime := now }

/-- Outcome of one `handleBarcodeScan` invocation (pos/index.tsx 135-175). -/
inductive ScanAction
  /-- `isProcessing.current` or `showSheetRef.current` guard fired. -/
  | ignoredBusy
  /-- Neither regex matched: silently ignored. -/
  | notACode
  /-- Debounce suppressed the resolution; state unchanged. -/
  | debounced
  /-- Lookup proceeds for this code with the debounce state re-recorded. -/
  | lookup (sku : String) (newState : ScanDebounceState)
deriving DecidableEq, Repr

/-- `handleBarcodeScan` (pos/index.tsx lines 135-175): concurrency guards,
code extraction, debounce test, then record-and-lookup. -/
def handleBarcodeScan (isProcessing showSheet : Bool) (st : ScanDebounceState)
    (raw : String) (now : ℤ) : ScanAction :=
  if isProcessing then .ignoredBusy
  else if showSheet then .ignoredBusy
  else
    match extractCode raw with
    | none => .notACode
    | some sku =>
      if debounceSuppress st sku now then .debounced
      else .lookup sku (setLastScannedSku sku now)

/-! ## Catalog lookup (`pos/index.tsx` lines 75-130) -/

/-- The row filter of `lookupBySku`'s query (pos/index.tsx lines 89-95):
`.or(sku.eq.X,qr_code_data.eq.X).eq(user_id, uid).eq(is_active, true)`. -/
def matchesLookup (uid code : String) (it : Item) : Bool :=
  (it.sku = code ∨ it.qr_code_data = code) ∧ it.user_id = uid ∧ it.is_active

/-- Outcome of `lookupBySku`: the sheet opens on a found item, a toast is
shown otherwise. -/
inductive LookupResult
  /-- `setScannedItem(data); setShowSheet(true)`. -/
  | found (it : Item)
  /-- `maybeSingle` returned no row: `Item not in system` toast. -/
  | notFound
  /-- Query error (`maybeSingle` also errors when several rows match):
  `Error looking up item` toast. -/
  | dbError
deriving DecidableEq, Repr

/-- `lookupBySku` (pos/index.tsx lines 75-130) over a table of items. -/
def lookupBySku (db : List Item) (uid code : String) : LookupResult :=
  match db.filter (matchesLookup uid code) with
  | [] => .notFound
  | [it] => .found it
  | _ => .dbError

/-! ## Transaction layer (`lib/useTransaction.ts`) -/

/-- Result of a Supabase call as seen by `createSale`. -/
inductive DbResult
  | ok
  | err (msg : String)
deriving DecidableEq, Repr

/-- `msg.includes(pat)` for the RPC-missing test (useTransaction.ts 24-26). -/
def includesSubstr (msg pat : String) : Bool :=
  decide (pat.toList <:+: msg.toList)

/-- `isRpcMissing` (useTransaction.ts lines 24-26): the RPC error message
mentions `function` or `does not exist`. -/
def isRpcMissing (msg : String) : Bool :=
  includesSubstr msg "function" || includesSubstr msg "does not exist"

/-- Modelled from the spec: the `decrement_stock` Postgres RPC is not part of
src/ (only its caller is); spec §4.4 step 8 and §6 say it atomically
decrements `quantity_in_stock` by the sold quantity — floored at zero — and
increments the cumulative `quantity_sold` counter by the same amount.
Returns the `(quantity_in_stock, quantity_sold)` pair it writes. -/
def rpcDecrementStock (s c q : ℤ) : ℤ × ℤ :=
  (max 0 (s - q), c + q)

/-- The `(quantity_in_stock, quantity_sold)` values the fallback `.update`
writes (useTransaction.ts lines 45-52): `Math.max(0, s - qty)` and
`sold + qty`, from the freshly fetched row `(s, c)`. -/
def fallbackStockUpdate (s c q : ℤ) : ℤ × ℤ :=
  (max 0 (s - q), c + q)

/-- Outcomes of the collaborator calls inside one `decrementStock` run. -/
structure StockEnv where
  /-- `supabase.rpc('decrement_stock', ...)` error, if any. -/
  rpcError : Option String
  /-- Fallback `select` error, if any. -/
  fetchError : Option String
  /-- The row the fallback `select ... single()` returns:
  `(quantity_in_stock, quantity_sold)`, read fresh from the store. -/
  fetchRow : Option (ℤ × ℤ)
  /-- Fallback `update` error, if any. -/
  updateError : Option String
deriving DecidableEq, Repr

/-- `decrementStock` (useTransaction.ts lines 11-55).  Returns the error
message it reports (or `none`) together with the stock values actually
applied to the item (or `none` when no write took effect).  The RPC's own
effect on the pre-call values `(s₀, c₀)` is the spec-modelled
`rpcDecrementStock`. -/
def decrementStock (s₀ c₀ qty : ℤ) (env : StockEnv) :
    Option String × Option (ℤ × ℤ) :=
  match env.rpcError with
  | none => (none, some (rpcDecrementStock s₀ c₀ qty))
  | some msg =>
    if ¬ isRpcMissing msg then (some msg, none)
    else
      match env.fetchError, env.fetchRow with
      | some fe, _ => (some fe, none)
      | none, none => (some "Item not found for stock update", none)
      | none, some (s, c) =>
        match env.updateError with
        | some ue => (some ue, none)
        | none => (none, some (fallbackStockUpdate s c qty))

/-- Observable effects of one `createSale` run (useTransaction.ts 61-105). -/
structure CreateSaleRun where
  /-- The boolean `createSale` resolves with. -/
  returned : Bool
  /-- How many `decrementStock` calls were issued. -/
  decrementCalls : ℕ
  /-- Whether the transaction row was inserted (and never rolled back). -/
  inserted : Bool
  /-- The `error` state left behind. -/
  errorState : Option String
deriving DecidableEq, Repr

/-- `createSale` (useTransaction.ts lines 61-105): insert the transaction;
on insert error set the error and return `false` without touching stock; on
success call `decrementStock` once and return `true`, turning a stock error
into a warning banner only. -/
def createSale (insertResult : DbResult) (s₀ c₀ qty : ℤ) (env : StockEnv) :
    CreateSaleRun :=
  match insertResult with
  | .err m => { returned := false, decrementCalls := 0, inserted := false, errorState := some m }
  | .ok =>
    let r := decrementStock s₀ c₀ qty env
    { returned := true
      decrementCalls := 1
      inserted := true
      errorState := r.1.map (fun m => "Sale recorded. Stock update failed: " ++ m) }

/-! ## Concrete fixtures used by witnesses and counterexamples -/

/-- An item priced KES 150 with floor 100, no ceiling, 5 in stock. -/
def itemA : Item :=
  { id := "itm-1", user_id := "usr-1", sku := "SS-2602-TEC-00001"
    qr_code_data := "stocksnap://item/SS-2602-TEC-00001"
    sell_price := 150, sell_price_floor := 100, sell_price_ceiling := none
    quantity_in_stock := 5, quantity_sold := 0, reorder_point := 3, is_active := true }

/-- An item with 2 in stock and reorder point 3 (spec scenario C). -/
def itemLow : Item :=
  { id := "itm-2", user_id := "usr-1", sku := "SS-2602-ABC-00002"
    qr_code_data := "stocksnap://item/SS-2602-ABC-00002"
    sell_price := 100, sell_price_floor := 100, sell_price_ceiling := none
    quantity_in_stock := 2, quantity_sold := 7, reorder_point := 3, is_active := true }

/-- An item with floor 10 and no ceiling, for the decimal-price run. -/
def itemDec : Item :=
  { id := "itm-3", user_id := "usr-1", sku := "SS-2602-DEC-00003"
    qr_code_data := "stocksnap://item/SS-2602-DEC-00003"
    sell_price := 20, sell_price_floor := 10, sell_price_ceiling := none
    quantity_in_stock := 9, quantity_sold := 0, reorder_point := 1, is_active := true }

/-- A cash sheet at price 150, quantity 2. -/
def sheetCash : SheetState :=
  { price := "150", quantity := 2, paymentMethod := .cash
    mpesaPhone := "", mpesaCode := "", notes := "" }

/-- A cash sheet at price 90 (below `itemA`'s floor of 100). -/
def sheetBelowFloor : SheetState :=
  { price := "90", quantity := 1, paymentMethod := .cash
    mpesaPhone := "", mpesaCode := "", notes := "" }

/-- A cash sheet asking for 5 units at price 100. -/
def sheetQty5 : SheetState :=
  { price := "100", quantity := 5, paymentMethod := .cash
    mpesaPhone := "", mpesaCode := "", notes := "" }

/-- An M-Pesa STK sheet with a valid phone. -/
def sheetStk : SheetState :=
  { price := "150", quantity := 1, paymentMethod := .mpesa_stk
    mpesaPhone := "712345678", mpesaCode := "", notes := "" }

/-- An M-Pesa till sheet with a valid (lowercase, padded) code. -/
def sheetTill : SheetState :=
  { price := "150", quantity := 1, paymentMethod := .mpesa_till
    mpesaPhone := "", mpesaCode := " sj45k7h2l9 ", notes := "" }

/-- A cash sheet whose price field reads `12.5`. -/
def sheetDec : SheetState :=
  { price := "12.5", quantity := 1, paymentMethod := .cash
    mpesaPhone := "", mpesaCode := "", notes := "" }

/-- A stock environment in which the RPC succeeds. -/
def envRpcOk : StockEnv :=
  { rpcError := none, fetchError := none, fetchRow := none, updateError := none }

/-- A stock environment in which the RPC is missing and the fallback
fetches `(2, 7)` and updates successfully. -/
def envFallback : StockEnv :=
  { rpcError := some "function public.decrement_stock does not exist"
    fetchError := none, fetchRow := some (2, 7), updateError := none }

/-- Shared evaluation lemma: the literal `100` parses to 100. -/
theorem priceNumOf_100 : priceNumOf "100" = 100 := by
  simp +decide [priceNumOf, digitsVal]

/-- Shared evaluation lemma: the literal `150` parses to 150. -/
theorem priceNumOf_150 : priceNumOf "150" = 150 := by
  simp +decide [priceNumOf, digitsVal]

/-- Shared evaluation lemma: the literal `90` parses to 90. -/
theorem priceNumOf_90 : priceNumOf "90" = 90 := by
  simp +decide [priceNumOf, digitsVal]

/-- Shared evaluation lemma: the literal `12.5` parses to 25/2. -/
theorem priceNumOf_12_5 : priceNumOf "12.5" = 25 / 2 := by
  simp +decide [priceNumOf, digitsVal]
  norm_num

/-! ## C1 — transaction insert / stock decrement ordering -/

/-- C1: in `createSale`, the stock decrement is attempted iff the ledger
insert succeeded.  When the transaction insert errors, no decrement call is
issued and `false` is returned with the draft-preserving error set; when the
insert succeeds, exactly one decrement call is issued and `true` is returned
regardless of the decrement's outcome — a decrement failure only leaves a
warning banner and never un-reports the inserted transaction. -/
theorem createSale_decrement_iff_insert :
    (∀ (m : String) (s₀ c₀ qty : ℤ) (env : StockEnv),
        createSale (.err m) s₀ c₀ qty env =
          { returned := false, decrementCalls := 0, inserted := false, errorState := some m })
  ∧ (∀ (s₀ c₀ qty : ℤ) (env : StockEnv),
        (createSale .ok s₀ c₀ qty env).returned = true ∧
        (createSale .ok s₀ c₀ qty env).decrementCalls = 1 ∧
        (createSale .ok s₀ c₀ qty env).inserted = true) := by
  constructor
  · intro m s₀ c₀ qty env
    rfl
  · intro s₀ c₀ qty env
    exact ⟨rfl, rfl, rfl⟩

/-! ## C5 — stock decrement arithmetic -/

/-- C5: every successful stock adjustment writes
`quantity_in_stock = max 0 (stock - qty)` and `quantity_sold = sold + qty`:
via the (spec-modelled) RPC on the pre-call values, and via the fallback
read-modify-write on the freshly fetched row. -/
theorem decrementStock_values (s₀ c₀ s c qty : ℤ) (env : StockEnv) :
    (env.rpcError = none →
        decrementStock s₀ c₀ qty env = (none, some (max 0 (s₀ - qty), c₀ + qty)))
  ∧ (∀ msg, env.rpcError = some msg → isRpcMissing msg = true →
        env.fetchError = none → env.fetchRow = some (s, c) → env.updateError = none →
        decrementStock s₀ c₀ qty env = (none, some (max 0 (s - qty), c + qty))) := by
  constructor
  · intro h
    simp [decrementStock, h, rpcDecrementStock]
  · intro msg h1 h2 h3 h4 h5
    simp [decrementStock, h1, h2, h3, h4, h5, fallbackStockUpdate]

/-- Witness for C5: the RPC path on stock 5, sold 0, qty 2 yields (3, 2);
the fallback path on fetched row (2, 7) with qty 5 floors the stock at 0
and yields (0, 12). -/
theorem decrementStock_values_witness :
    decrementStock 5 0 2 envRpcOk = (none, some (3, 2)) ∧
    decrementStock 0 0 5 envFallback = (none, some (0, 12)) := by
  constructor
  · exact ((decrementStock_values 5 0 0 0 2 envRpcOk).1 rfl).trans (by decide)
  · exact (((decrementStock_values 0 0 2 7 5 envFallback).2
      "function public.decrement_stock does not exist" rfl (by decide) rfl rfl rfl).trans
      (by decide))

/-! ## C2 — pricing policy -/

/-- C2: `priceError` rejects a proposed price iff it is below the item's
floor, or the ceiling is non-null and the price is above it; every price on
the closed interval `[floor, ceiling]` (or `[floor, ∞)` with a null ceiling)
is accepted; and a below-floor price is a hard block: `handleConfirm`
returns without submitting anything and the confirm button is disabled. -/
theorem pricing_policy (item : Item) (st : SheetState) (p : ℚ)
    (hp : priceNumOf st.price = p) :
    ((priceError item p).isSome = true ↔
        p < item.sell_price_floor ∨ ∃ c, item.sell_price_ceiling = some c ∧ c < p)
  ∧ (priceError item p = none ↔
        item.sell_price_floor ≤ p ∧ ∀ c ∈ item.sell_price_ceiling, p ≤ c)
  ∧ (p < item.sell_price_floor →
        priceError item p = some .belowFloor ∧
        handleConfirm item st = .priceBlocked ∧
        confirmDisabled false item st.price = true) := by
  refine ⟨?_, ?_, ?_⟩
  · rcases hceil : item.sell_price_ceiling with _ | c <;>
      simp only [priceError, hceil] <;> split_ifs <;> simp_all
  · rcases hceil : item.sell_price_ceiling with _ | c <;>
      simp only [priceError, hceil] <;> split_ifs <;> simp_all
  · intro h
    have herr : priceError item p = some .belowFloor := by
      simp [priceError, h]
    refine ⟨herr, ?_, ?_⟩
    · simp [handleConfirm, hp, herr]
    · simp [confirmDisabled, hp, herr]

/-- Witness for C2 at `itemA` (floor 100, no ceiling): price 90 is rejected
as below-floor, blocks `handleConfirm` and disables the button; price 150
passes on the closed interval. -/
theorem pricing_policy_witness :
    (priceError itemA 90 = some .belowFloor ∧
      handleConfirm itemA sheetBelowFloor = .priceBlocked ∧
      confirmDisabled false itemA sheetBelowFloor.price = true) ∧
    priceError itemA 150 = none := by
  constructor
  · exact (pricing_policy itemA sheetBelowFloor 90 priceNumOf_90).2.2 (by norm_num [itemA])
  · exact (pricing_policy itemA sheetCash 150 priceNumOf_150).2.1.mpr
      (by simp [itemA]; norm_num)

/-! ## C3 — low-stock confirmation gate -/

/-- C3: once price and payment validation pass, a quantity at most the stock
submits directly with no gate; a quantity above the stock reaches the
low-stock gate (exactly one gate outcome, carrying the pending submit), and
the pending sale runs only on explicit acknowledgment — declining submits
nothing. -/
theorem low_stock_gate_policy (item : Item) (st : SheetState)
    (hprice : priceError item (priceNumOf st.price) = none)
    (hphone : st.paymentMethod = .mpesa_stk → isValidKenyanPhone st.mpesaPhone = true)
    (hcode : st.paymentMethod = .mpesa_till →
      validMpesaCode (cleanMpesaCode st.mpesaCode) = true) :
    (st.quantity ≤ item.quantity_in_stock →
        handleConfirm item st = .submitted (submitSale st))
  ∧ (st.quantity > item.quantity_in_stock →
        handleConfirm item st = .lowStockGate (submitSale st) ∧
        resolveLowStockGate (submitSale st) true = some (submitSale st) ∧
        resolveLowStockGate (submitSale st) false = none) := by
  have h2 : ¬ (st.paymentMethod = .mpesa_stk ∧ isValidKenyanPhone st.mpesaPhone = false) := by
    rintro ⟨hm, hv⟩
    rw [hphone hm] at hv
    simp at hv
  have h3 : ¬ (st.paymentMethod = .mpesa_till ∧
      validMpesaCode (cleanMpesaCode st.mpesaCode) = false) := by
    rintro ⟨hm, hv⟩
    rw [hcode hm] at hv
    simp at hv
  constructor
  · intro hq
    simp [handleConfirm, hprice, h2, h3, not_lt.mpr hq]
  · intro hq
    refine ⟨?_, rfl, rfl⟩
    simp [handleConfirm, hprice, h2, h3, hq]

/-- Witness for C3 at `itemLow` (stock 2): quantity 5 hits the gate, whose
Continue submits and whose Cancel submits nothing; quantity 2 at `itemA`
(stock 5) submits directly. -/
theorem low_stock_gate_policy_witness :
    (handleConfirm itemLow sheetQty5 = .lowStockGate (submitSale sheetQty5) ∧
      resolveLowStockGate (submitSale sheetQty5) true = some (submitSale sheetQty5) ∧
      resolveLowStockGate (submitSale sheetQty5) false = none) ∧
    handleConfirm itemA sheetCash = .submitted (submitSale sheetCash) := by
  constructor
  · exact (low_stock_gate_policy itemLow sheetQty5
      (by rw [show sheetQty5.price = "100" from rfl, priceNumOf_100]; simp [priceError, itemLow])
      (by intro h; exact absurd h (by decide)) (by intro h; exact absurd h (by decide))).2
      (by decide)
  · exact (low_stock_gate_policy itemA sheetCash
      (by rw [show sheetCash.price = "150" from rfl, priceNumOf_150]; simp [priceError, itemA]; norm_num)
      (by intro h; exact absurd h (by decide)) (by intro h; exact absurd h (by decide))).1
      (by decide)

/-! ## C4 — M-Pesa STK push downgrade -/

/-- C4: with method `mpesa_stk`, once the phone check and price check pass,
`handleConfirm` reaches (directly or through the low-stock gate) a submit
whose payload has been downgraded at submission time: method `cash`, no
phone and no code stored, plus the non-blocking warning toast; the payload
`handleConfirmSale` persists therefore carries `payment_method = cash` and
`payment_status = confirmed`, never `pending`. -/
theorem mpesa_stk_downgrade (item : Item) (st : SheetState)
    (hm : st.paymentMethod = .mpesa_stk)
    (hprice : priceError item (priceNumOf st.price) = none)
    (hphone : isValidKenyanPhone st.mpesaPhone = true) :
    (handleConfirm item st =
        if st.quantity > item.quantity_in_stock then .lowStockGate (submitSale st)
        else .submitted (submitSale st))
  ∧ (submitSale st).toast =
      some ("M-Pesa STK coming soon — recording as cash sale", .warning)
  ∧ (submitSale st).data.paymentMethod = .cash
  ∧ (submitSale st).data.mpesaPhone = none
  ∧ (submitSale st).data.mpesaCode = none
  ∧ (buildSalePayload item (submitSale st).data).payment_method = .cash
  ∧ (buildSalePayload item (submitSale st).data).payment_status = .confirmed
  ∧ (buildSalePayload item (submitSale st).data).mpesa_phone = none := by
  have hsub : (submitSale st).data.paymentMethod = .cash := by
    simp [submitSale, hm]
  refine ⟨?_, ?_, hsub, ?_, ?_, ?_, ?_, ?_⟩
  · simp only [handleConfirm, hprice, Option.isSome_none]
    simp [hm, hphone]
  · simp [submitSale, hm]
  · simp [submitSale, hm]
  · simp [submitSale, hm]
  · simp [buildSalePayload, hsub]
  · simp [buildSalePayload, hsub]
  · simp [submitSale, hm, buildSalePayload]

/-- Witness for C4: the STK sheet with phone `712345678` on `itemA`
submits a cash-confirmed payload with the warning toast. -/
theorem mpesa_stk_downgrade_witness :
    handleConfirm itemA sheetStk = .submitted (submitSale sheetStk) ∧
    (buildSalePayload itemA (submitSale sheetStk).data).payment_method = .cash ∧
    (buildSalePayload itemA (submitSale sheetStk).data).payment_status = .confirmed := by
  have h := mpesa_stk_downgrade itemA sheetStk rfl
    (by rw [show sheetStk.price = "150" from rfl, priceNumOf_150]; simp [priceError, itemA]; norm_num)
    (by decide)
  refine ⟨?_, h.2.2.2.2.2.1, h.2.2.2.2.2.2.1⟩
  have h1 := h.1
  rwa [if_neg (by decide : ¬ sheetStk.quantity > itemA.quantity_in_stock)] at h1

/-! ## C6 — scan debouncer -/

/-- C6: with last debounce record `(c0, t0)`, an automatic scan whose payload
resolves to `code` at time `t1` is suppressed iff `code = c0` and
`t1 - t0 < 2000`; a different code, or the same code at `t1 ≥ t0 + 2000`, is
never suppressed and instead proceeds to lookup with the debounce state
re-recorded as `(code, t1)`. -/
theorem scan_debounce_policy (c0 : String) (t0 : ℤ) (raw code : String) (t1 : ℤ)
    (hex : extractCode raw = some code) :
    (handleBarcodeScan false false ⟨some c0, t0⟩ raw t1 = .debounced ↔
        code = c0 ∧ t1 - t0 < 2000)
  ∧ (¬ (code = c0 ∧ t1 - t0 < 2000) →
        handleBarcodeScan false false ⟨some c0, t0⟩ raw t1 =
          .lookup code ⟨some code, t1⟩) := by
  have hb : debounceSuppress ⟨some c0, t0⟩ code t1 = true ↔ code = c0 ∧ t1 - t0 < 2000 := by
    constructor
    · intro h
      simp [debounceSuppress, SCAN_DEBOUNCE_MS] at h
      exact ⟨h.1.symm, h.2⟩
    · intro h
      simp [debounceSuppress, SCAN_DEBOUNCE_MS, h.1, h.2]
  have hstep : handleBarcodeScan false false ⟨some c0, t0⟩ raw t1 =
      (if debounceSuppress ⟨some c0, t0⟩ code t1 then .debounced
       else .lookup code (setLastScannedSku code t1)) := by
    show (match extractCode raw with
          | none => ScanAction.notACode
          | some sku =>
            if debounceSuppress ⟨some c0, t0⟩ sku t1 then ScanAction.debounced
            else ScanAction.lookup sku (setLastScannedSku sku t1)) = _
    rw [hex]
  rw [hstep]
  constructor
  · split_ifs with h
    · simp [hb.mp h]
    · rw [hb] at h
      simp [h]
  · intro h
    rw [← hb] at h
    simp [h, setLastScannedSku]

/-- Witness for C6: after recording `SS-2602-TEC-00001` at t0 = 1000, a
re-scan of the same code at t1 = 2500 is suppressed, while the same code at
t1 = 3200 and a different code at t1 = 1001 both proceed to lookup with the
state re-recorded. -/
theorem scan_debounce_policy_witness :
    handleBarcodeScan false false ⟨some "SS-2602-TEC-00001", 1000⟩
        "SS-2602-TEC-00001" 2500 = .debounced ∧
    handleBarcodeScan false false ⟨some "SS-2602-TEC-00001", 1000⟩
        "SS-2602-TEC-00001" 3200 =
      .lookup "SS-2602-TEC-00001" ⟨some "SS-2602-TEC-00001", 3200⟩ ∧
    handleBarcodeScan false false ⟨some "SS-2602-TEC-00001", 1000⟩
        "SS-2602-ABC-00002" 1001 =
      .lookup "SS-2602-ABC-00002" ⟨some "SS-2602-ABC-00002", 1001⟩ := by
  refine ⟨?_, ?_, ?_⟩
  · exact (scan_debounce_policy "SS-2602-TEC-00001" 1000 "SS-2602-TEC-00001"
      "SS-2602-TEC-00001" 2500 (by decide)).1.mpr (by decide)
  · exact (scan_debounce_policy "SS-2602-TEC-00001" 1000 "SS-2602-TEC-00001"
      "SS-2602-TEC-00001" 3200 (by decide)).2 (by decide)
  · exact (scan_debounce_policy "SS-2602-TEC-00001" 1000 "SS-2602-ABC-00002"
      "SS-2602-ABC-00002" 1001 (by decide)).2 (by decide)

/-! ## C8 — M-Pesa transaction code validation -/

/-- C8: with method `mpesa_till` and a passing price check, `handleConfirm`
rejects with the invalid-code alert iff the code, after trimming and
uppercasing, is not exactly 10 alphanumeric characters; when it is, the
submission stores the normalized code and the persisted payload has
`payment_status = confirmed`. -/
theorem mpesa_till_code_policy (item : Item) (st : SheetState)
    (hm : st.paymentMethod = .mpesa_till)
    (hprice : priceError item (priceNumOf st.price) = none) :
    (handleConfirm item st = .invalidCodeAlert ↔
        ¬ ((cleanMpesaCode st.mpesaCode).length = 10 ∧
           (cleanMpesaCode st.mpesaCode).all isUpperAlnum = true))
  ∧ (((cleanMpesaCode st.mpesaCode).length = 10 ∧
        (cleanMpesaCode st.mpesaCode).all isUpperAlnum = true) →
        (submitSale st).data.mpesaCode = some (String.mk (cleanMpesaCode st.mpesaCode)) ∧
        (buildSalePayload item (submitSale st).data).payment_status = .confirmed ∧
        handleConfirm item st =
          (if st.quantity > item.quantity_in_stock then .lowStockGate (submitSale st)
           else .submitted (submitSale st))) := by
  have hstk : ¬ (st.paymentMethod = .mpesa_stk ∧ isValidKenyanPhone st.mpesaPhone = false) := by
    rintro ⟨h, _⟩
    rw [hm] at h
    cases h
  have hv : validMpesaCode (cleanMpesaCode st.mpesaCode) = true ↔
      ((cleanMpesaCode st.mpesaCode).length = 10 ∧
        (cleanMpesaCode st.mpesaCode).all isUpperAlnum = true) := by
    simp [validMpesaCode]
  cases hvb : validMpesaCode (cleanMpesaCode st.mpesaCode) with
  | false =>
    have hnc : ¬ ((cleanMpesaCode st.mpesaCode).length = 10 ∧
        (cleanMpesaCode st.mpesaCode).all isUpperAlnum = true) := by
      intro hc
      rw [hv.mpr hc] at hvb
      cases hvb
    have hfc : handleConfirm item st = .invalidCodeAlert := by
      simp [handleConfirm, hprice, hstk, hm, hvb]
    exact ⟨iff_of_true hfc hnc, fun hc => absurd hc hnc⟩
  | true =>
    have hcc := hv.mp hvb
    have hfc : handleConfirm item st =
        (if st.quantity > item.quantity_in_stock then .lowStockGate (submitSale st)
         else .submitted (submitSale st)) := by
      simp [handleConfirm, hprice, hstk, hvb]
    refine ⟨⟨?_, fun hn => absurd hcc hn⟩, ?_⟩
    · intro habs
      rw [hfc] at habs
      split_ifs at habs
    · intro hc
      exact ⟨by simp [submitSale, hm], by simp [submitSale, buildSalePayload, hm], hfc⟩

/-- Witness for C8: the padded lowercase code ` sj45k7h2l9 ` normalizes to
`SJ45K7H2L9`, is accepted and stored normalized with confirmed status, while
the code `abc` is rejected with the invalid-code alert. -/
theorem mpesa_till_code_policy_witness :
    (submitSale sheetTill).data.mpesaCode = some "SJ45K7H2L9" ∧
    (buildSalePayload itemA (submitSale sheetTill).data).payment_status = .confirmed ∧
    handleConfirm itemA
      { sheetTill with mpesaCode := "abc" } = .invalidCodeAlert := by
  have hp : priceError itemA (priceNumOf sheetTill.price) = none := by
    rw [show sheetTill.price = "150" from rfl, priceNumOf_150]
    simp [priceError, itemA]
    norm_num
  have h := (mpesa_till_code_policy itemA sheetTill rfl hp).2 (by decide)
  refine ⟨?_, h.2.1, ?_⟩
  · rw [h.1]
    rfl
  · exact (mpesa_till_code_policy itemA { sheetTill with mpesaCode := "abc" } rfl hp).1.mpr
      (by decide)

/-! ## C7 — identifier resolver and dual-field lookup -/

/-- `stripChars` succeeds exactly when the payload is the literal prefix
followed by the returned remainder. -/
theorem stripChars_some_iff (p l r : List Char) :
    stripChars p l = some r ↔ l = p ++ r := by
  induction p generalizing l with
  | nil => simp [stripChars, eq_comm]
  | cons c ps ih =>
    cases l with
    | nil => simp [stripChars]
    | cons x xs =>
      by_cases hx : x = c
      · subst hx
        simp [stripChars, ih]
      · simp [stripChars, hx, Ne.symm hx]

/-- `splitLegacy` succeeds exactly on payloads of the form
`stocksnap://item/` followed by the returned remainder. -/
theorem splitLegacy_some_iff (l r : List Char) :
    splitLegacy l = some r ↔ l = "stocksnap://item/".toList ++ r :=
  stripChars_some_iff _ l r

/-- `legacyMatch` succeeds exactly when the URI prefix splits off a
non-empty remainder all of whose characters `.` can match. -/
theorem legacyMatch_some_iff (l r : List Char) :
    legacyMatch l = some r ↔
      splitLegacy l = some r ∧ r ≠ [] ∧ r.all isDotChar = true := by
  unfold legacyMatch
  cases hs : splitLegacy l with
  | none => simp
  | some rest =>
    simp only [Option.some.injEq]
    split_ifs with hc
    · simp only [Option.some.injEq]
      constructor
      · intro h
        subst h
        exact ⟨rfl, hc⟩
      · rintro ⟨h, _⟩
        exact h
    · constructor
      · intro h
        cases h
      · rintro ⟨rfl, h2⟩
        exact absurd h2 hc

/-- A list of length 3 is a three-element list. -/
theorem exists_len3 (d : List Char) (hd : d.length = 3) :
    ∃ x1 x2 x3, d = [x1, x2, x3] := by
  rcases d with _ | ⟨x1, _ | ⟨x2, _ | ⟨x3, _ | ⟨x4, t⟩⟩⟩⟩
  · simp at hd
  · simp at hd
  · simp at hd
  · exact ⟨x1, x2, x3, rfl⟩
  · simp at hd

/-- A list of length 4 is a four-element list. -/
theorem exists_len4 (d : List Char) (hd : d.length = 4) :
    ∃ x1 x2 x3 x4, d = [x1, x2, x3, x4] := by
  rcases d with _ | ⟨x1, t⟩
  · simp at hd
  · obtain ⟨x2, x3, x4, ht⟩ := exists_len3 t (by simpa using hd)
    exact ⟨x1, x2, x3, x4, by rw [ht]⟩

/-- A list of length 5 is a five-element list. -/
theorem exists_len5 (d : List Char) (hd : d.length = 5) :
    ∃ x1 x2 x3 x4 x5, d = [x1, x2, x3, x4, x5] := by
  rcases d with _ | ⟨x1, t⟩
  · simp at hd
  · obtain ⟨x2, x3, x4, x5, ht⟩ := exists_len4 t (by simpa using hd)
    exact ⟨x1, x2, x3, x4, x5, by rw [ht]⟩

/-- `skuShape` accepts exactly the strings `SS-` + 4 digits + `-` +
3 characters of `[A-Z0-9]` + `-` + 5 digits. -/
theorem skuShape_iff (l : List Char) :
    skuShape l = true ↔
      ∃ d a n : List Char,
        l = ['S', 'S', '-'] ++ d ++ ['-'] ++ a ++ ['-'] ++ n ∧
        d.length = 4 ∧ d.all Char.isDigit = true ∧
        a.length = 3 ∧ a.all isUpperAlnum = true ∧
        n.length = 5 ∧ n.all Char.isDigit = true := by
  constructor
  · intro h
    unfold skuShape at h
    split at h
    · rename_i d1 d2 d3 d4 a1 a2 a3 n1 n2 n3 n4 n5
      simp at h
      refine ⟨[d1, d2, d3, d4], [a1, a2, a3], [n1, n2, n3, n4, n5], rfl, rfl, ?_, rfl, ?_,
        rfl, ?_⟩ <;> simp_all
    · cases h
  · rintro ⟨d, a, n, hl, hd, hda, ha, haa, hn, hna⟩
    obtain ⟨d1, d2, d3, d4, rfl⟩ := exists_len4 d hd
    obtain ⟨a1, a2, a3, rfl⟩ := exists_len3 a ha
    obtain ⟨n1, n2, n3, n4, n5, rfl⟩ := exists_len5 n hn
    subst hl
    show skuShape ['S', 'S', '-', d1, d2, d3, d4, '-', a1, a2, a3, '-',
      n1, n2, n3, n4, n5] = true
    unfold skuShape
    simp_all

/-- An SKU-shaped payload (starting with uppercase `S`) never carries the
legacy URI prefix (starting with lowercase `s`). -/
theorem splitLegacy_of_sku (l : List Char) (h : skuShape l = true) :
    splitLegacy l = none := by
  obtain ⟨d, a, n, hl, _⟩ := (skuShape_iff l).mp h
  subst hl
  rfl

/-- C7: the resolver extracts a code iff the payload matches the legacy URI
shape `stocksnap://item/{code}` (code nonempty) or the bare SKU shape
`SS-<4 digits>-<3 alphanumerics>-<5 digits>`, and nothing else; the extracted
code is the URI remainder respectively the (trimmed) payload itself.  The
subsequent lookup matches the code against both the `sku` and the
`qr_code_data` columns, scoped to the user's active items: an item matching
on either column (uniquely, among distinct rows) is found. -/
theorem resolver_policy (raw code uid : String) (db : List Item) (it : Item) :
    (extractCode raw = some code ↔
        (∃ rest : List Char, raw.toList = "stocksnap://item/".toList ++ rest ∧
            rest ≠ [] ∧ rest.all isDotChar = true ∧ code = String.mk rest)
      ∨ (skuShape raw.toList = true ∧ code = String.mk (jsTrim raw.toList)))
  ∧ (db.Nodup → it ∈ db → matchesLookup uid code it = true →
        (∀ o ∈ db, matchesLookup uid code o = true → o = it) →
        lookupBySku db uid code = .found it) := by
  constructor
  · constructor
    · intro h
      cases hleg : legacyMatch raw.toList with
      | some rest =>
        have hx : extractCode raw = some (String.mk rest) := by
          unfold extractCode
          rw [hleg]
        rw [hx] at h
        injection h with h
        obtain ⟨hs, hne, hdot⟩ := (legacyMatch_some_iff raw.toList rest).mp hleg
        exact Or.inl ⟨rest, (splitLegacy_some_iff raw.toList rest).mp hs, hne, hdot, h.symm⟩
      | none =>
        cases hsku : skuShape raw.toList with
        | true =>
          have hx : extractCode raw = some (String.mk (jsTrim raw.toList)) := by
            unfold extractCode
            rw [hleg]
            rw [hsku]
            rfl
          rw [hx] at h
          injection h with h
          exact Or.inr ⟨rfl, h.symm⟩
        | false =>
          have hx : extractCode raw = none := by
            unfold extractCode
            rw [hleg]
            rw [hsku]
            rfl
          rw [hx] at h
          cases h
    · intro h
      rcases h with ⟨rest, hraw, hne, hdot, hcode⟩ | ⟨hsku, hcode⟩
      · have hleg : legacyMatch raw.toList = some rest :=
          (legacyMatch_some_iff raw.toList rest).mpr
            ⟨(splitLegacy_some_iff raw.toList rest).mpr hraw, hne, hdot⟩
        unfold extractCode
        rw [hleg, hcode]
      · have hs : splitLegacy raw.toList = none := splitLegacy_of_sku raw.toList hsku
        have hleg : legacyMatch raw.toList = none := by
          unfold legacyMatch
          rw [hs]
        unfold extractCode
        rw [hleg, hsku, hcode]
        rfl
  · intro hnd hmem hmatch huniq
    have hf : db.filter (matchesLookup uid code) = [it] := by
      have hmemf : it ∈ db.filter (matchesLookup uid code) :=
        List.mem_filter.mpr ⟨hmem, hmatch⟩
      have hall : ∀ x ∈ db.filter (matchesLookup uid code), x = it := by
        intro x hx
        have hx' := List.mem_filter.mp hx
        exact huniq x hx'.1 hx'.2
      have hndf : (db.filter (matchesLookup uid code)).Nodup := hnd.filter _
      rcases hfe : db.filter (matchesLookup uid code) with _ | ⟨a, t⟩
      · rw [hfe] at hmemf
        cases hmemf
      · rw [hfe] at hall hndf
        have ha : a = it := hall a (by simp)
        cases t with
        | nil => rw [ha]
        | cons b t2 =>
          have hb : b = it := hall b (by simp)
          subst ha
          subst hb
          simp at hndf
    unfold lookupBySku
    rw [hf]

/-- Witness for C7 (spec scenario D): the legacy payload
`stocksnap://item/LEGACY-CODE-1` and the bare payload `SS-2602-ABC-00002`
both extract, a non-code payload extracts nothing, and an item carrying the
extracted value in its `qr_code_data` column is found. -/
theorem resolver_policy_witness :
    extractCode "stocksnap://item/SS-2602-ABC-00002" = some "SS-2602-ABC-00002" ∧
    extractCode "SS-2602-ABC-00002" = some "SS-2602-ABC-00002" ∧
    extractCode "hello world" = none ∧
    lookupBySku [itemA, itemLow] "usr-1" "stocksnap://item/SS-2602-ABC-00002" =
      .found itemLow := by
  refine ⟨?_, ?_, by rfl, ?_⟩
  · exact (resolver_policy "stocksnap://item/SS-2602-ABC-00002" "SS-2602-ABC-00002"
      "usr-1" [] itemA).1.mpr (Or.inl ⟨"SS-2602-ABC-00002".toList, rfl, by decide, by decide, rfl⟩)
  · exact (resolver_policy "SS-2602-ABC-00002" "SS-2602-ABC-00002"
      "usr-1" [] itemA).1.mpr (Or.inr ⟨by decide, rfl⟩)
  · exact (resolver_policy "x" "stocksnap://item/SS-2602-ABC-00002" "usr-1"
      [itemA, itemLow] itemLow).2 (by decide) (by decide) (by decide)
      (by decide)

/-! ## C9 — low-stock alert after a sale -/

/-- C9 counterexample: a completed oversell (stock 2, reorder point 3,
quantity 5, acknowledged through the low-stock gate and persisted) has
floored resulting stock `max 0 (2 - 5) = 0 ≤ 3 = reorder_point`, yet the
code's alert guard `remaining >= 0` fails on `remaining = -3`, so no
low-stock alert is emitted — refuting the claim's "including when the sale
oversells the item". -/
theorem lowstock_alert_counterexample :
    handleConfirm itemLow sheetQty5 = .lowStockGate (submitSale sheetQty5) ∧
    resolveLowStockGate (submitSale sheetQty5) true = some (submitSale sheetQty5) ∧
    (buildSalePayload itemLow (submitSale sheetQty5).data).quantity = 5 ∧
    (createSale .ok itemLow.quantity_in_stock itemLow.quantity_sold 5 envRpcOk).returned
      = true ∧
    max 0 (itemLow.quantity_in_stock - 5) ≤ itemLow.reorder_point ∧
    lowStockAlert itemLow 5 = false := by
  have hp : priceError itemLow (priceNumOf sheetQty5.price) = none := by
    rw [show sheetQty5.price = "100" from rfl, priceNumOf_100]
    simp [priceError, itemLow]
  refine ⟨?_, rfl, rfl, rfl, by decide, by decide⟩
  unfold handleConfirm
  rw [if_neg (by rw [hp]; simp), if_neg (by decide), if_neg (by decide), if_pos (by decide)]

/-- C9 amended: after a successful sale of quantity `q` against stock `s`,
the low-stock alert is emitted iff `0 ≤ s - q ≤ reorder_point`; when the
sale oversells the item (`q > s`, resulting stock floored at zero), no alert
is emitted, the `remaining >= 0` guard excluding it. -/
theorem lowstock_alert_iff (item : Item) (q : ℤ) :
    lowStockAlert item q = true ↔
      0 ≤ item.quantity_in_stock - q ∧
        item.quantity_in_stock - q ≤ item.reorder_point := by
  simp only [lowStockAlert, decide_eq_true_eq, ge_iff_le]
  constructor
  · rintro ⟨h1, h2⟩
    exact ⟨h2, h1⟩
  · rintro ⟨h1, h2⟩
    exact ⟨h2, h1⟩

/-! ## C10 — integer money invariant -/

/-- C10 counterexample: the price field accepts decimal input, so the sale at
price string `12.5` against `itemDec` (floor 10, no ceiling) passes every
check and persists `price_at_sale = total_amount = 25/2`, which is not an
integer — refuting "all money values are integers in minor currency
units". -/
theorem integer_money_counterexample :
    handleConfirm itemDec sheetDec = .submitted (submitSale sheetDec) ∧
    (buildSalePayload itemDec (submitSale sheetDec).data).price_at_sale = 25 / 2 ∧
    (buildSalePayload itemDec (submitSale sheetDec).data).total_amount = 25 / 2 ∧
    ¬ ∃ n : ℤ, (buildSalePayload itemDec (submitSale sheetDec).data).total_amount
        = (n : ℚ) := by
  have hp : priceError itemDec (priceNumOf sheetDec.price) = none := by
    rw [show sheetDec.price = "12.5" from rfl, priceNumOf_12_5]
    simp [priceError, itemDec]
    norm_num
  have hprice : (buildSalePayload itemDec (submitSale sheetDec).data).price_at_sale
      = 25 / 2 := by
    simp [buildSalePayload, submitSale, sheetDec]
    rw [show priceNumOf "12.5" = 25 / 2 from priceNumOf_12_5]
  have htotal : (buildSalePayload itemDec (submitSale sheetDec).data).total_amount
      = 25 / 2 := by
    simp [buildSalePayload, submitSale, sheetDec]
    rw [show priceNumOf "12.5" = 25 / 2 from priceNumOf_12_5]
  refine ⟨?_, hprice, htotal, ?_⟩
  · unfold handleConfirm
    rw [if_neg (by rw [hp]; simp), if_neg (by decide), if_neg (by decide),
      if_neg (by decide)]
  · rintro ⟨n, hn⟩
    rw [htotal, div_eq_iff (by norm_num : (2 : ℚ) ≠ 0)] at hn
    have hz : (25 : ℤ) = n * 2 := by exact_mod_cast hn
    omega

/-- C10 amended: money values are JS numbers, not integers by construction:
when the parsed unit price is an integer `n`, the persisted values are the
exact integers `n` and `n × quantity` (no rounding ambiguity), but the price
pipeline also accepts decimal strings, so persisted money values are not
integers in general.  The claim's edge case stands: an empty or unparseable
price string is treated as unit price 0, and for an item with floor 0 (and
no negative ceiling) the zero price passes validation and the persisted
total is 0. -/
theorem integer_money_amended (item : Item) (st : SheetState) (n : ℤ)
    (hn : priceNumOf st.price = (n : ℚ)) :
    ((buildSalePayload item (submitSale st).data).price_at_sale = (n : ℚ) ∧
      (buildSalePayload item (submitSale st).data).total_amount
        = ((n * st.quantity : ℤ) : ℚ))
  ∧ priceNumOf "" = 0
  ∧ (item.sell_price_floor = 0 → (∀ c ∈ item.sell_price_ceiling, 0 ≤ c) →
      priceError item (priceNumOf "") = none ∧
      (st.price = "" →
        (buildSalePayload item (submitSale st).data).total_amount = 0)) := by
  have hdata : (submitSale st).data.price = priceNumOf st.price := by
    by_cases hm : st.paymentMethod = .mpesa_stk <;> simp [submitSale, hm]
  have hqty : (submitSale st).data.quantity = st.quantity := by
    by_cases hm : st.paymentMethod = .mpesa_stk <;> simp [submitSale, hm]
  have hempty : priceNumOf "" = 0 := by
    simp +decide [priceNumOf]
  refine ⟨⟨?_, ?_⟩, hempty, ?_⟩
  · simp [buildSalePayload, hdata, hn]
  · simp only [buildSalePayload, hdata, hqty, hn]
    push_cast
    ring
  · intro hf hc
    constructor
    · rw [hempty]
      rcases hceil : item.sell_price_ceiling with _ | c
      · simp [priceError, hf, hceil]
      · have hcc := hc c (by rw [hceil]; rfl)
        simp [priceError, hf, hceil]
        linarith
    · intro hps
      simp [buildSalePayload, hdata, hps, hempty]

/-- Witness for C10 (amended): the 2-unit cash sale at integer price 150
persists the exact integer total 300, and the empty price string parses
to 0. -/
theorem integer_money_amended_witness :
    (buildSalePayload itemA (submitSale sheetCash).data).total_amount = 300 ∧
    priceNumOf "" = 0 := by
  have h := integer_money_amended itemA sheetCash 150
    (by rw [show sheetCash.price = "150" from rfl, priceNumOf_150]; norm_num)
  refine ⟨?_, h.2.1⟩
  rw [h.1.2]
  norm_num [sheetCash]

end StockSnap
